import Mathlib

/-!
Verification of the DMF HSM API layer of xfsdump (`dump/hsmapi.c`).

The development shallow-embeds the C translation unit:

* the big-endian codec `msb_store` / `msb_load`;
* the attribute layout constants (`XFSattrvalue0_t`, `XFSattrvalue1_t`,
  `XFSattrregion_t` sizes and field byte offsets);
* the filesystem and file contexts `dmf_fs_ctxt_t` / `dmf_f_ctxt_t`
  (the 5000-byte `attrval` array is modelled as a function from byte
  index to byte value);
* the public entry points `HsmInitFileContext`, `HsmModifyExtentMap`,
  `HsmFilterExistingAttribute`, `HsmAddNewAttribute`,
  `HsmAllocateFileContext` and `HsmEstimateFileOffset`.

External collaborators (DMAPI handle construction and the
`attr_multi_by_handle` attribute fetch) are passed in as explicit
oracle arguments: a `Bool` for handle-construction success and an
`Option (List Nat)` for the fetched raw attribute bytes.  C functions
whose bodies are sequences of early returns are decomposed into one
Lean definition per program point, each named after the stage of the
original function it embeds.
-/

namespace Hsm

/-! ## Big-endian codec (`msb_store`, `msb_load`) -/

/-- `msb_store dest src length` from the source: writes `src` into
`length` bytes, most significant byte first (`dest[i] = src & 0xff`
walking `i` from `length - 1` down to `0`, shifting `src` right by 8
each step).  The destination byte array is returned as a list. -/
def msb_store : Nat → Nat → List Nat
  | _, 0 => []
  | src, n + 1 => msb_store (src >>> 8) n ++ [src &&& 0xff]

/-- `msb_load src length` from the source: `tmp = (tmp << 8) | src[i]`
for `i = 0 .. length - 1`, starting from `tmp = 0`. -/
def msb_load (src : List Nat) (length : Nat) : Nat :=
  (src.take length).foldl (fun tmp b => (tmp <<< 8) ||| b) 0

/-! ## Attribute layout constants

`XFSattrvalue0_t` is `fsys:1, version:1, state:2, flags:2, bfid:16`,
22 bytes.  `XFSattrvalue1_t` adds `sitetag:4, regcnt:2`, 28 bytes.
`XFSattrregion_t` is `rg_offset:8, rg_size:8, rg_state:2, rg_flags:1,
rg_fbits:1`, 20 bytes.  All fields are `u_char` arrays, so there is no
padding and the byte offsets used below are exact: `fsys` at 0,
`version` at 1, `state` at 2, `sitetag` at 22, `regcnt` at 26, and the
first region's `rg_offset`/`rg_size`/`rg_state`/`rg_flags`/`rg_fbits`
at 28/36/44/46/47. -/

def sizeof_XFSattrvalue0 : Nat := 22
def sizeof_XFSattrvalue1 : Nat := 28
def sizeof_XFSattrregion : Nat := 20
def MIN_FORMAT1_ATTR_LEN : Nat := sizeof_XFSattrvalue1 + sizeof_XFSattrregion

def FSYS_TYPE_XFS : Nat := 1
def DMF_ATTR_FORMAT_0 : Nat := 0
def DMF_ATTR_FORMAT_1 : Nat := 1

def DMF_ST_DUALSTATE : Nat := 2
def DMF_ST_OFFLINE : Nat := 3
def DMF_ST_UNMIGRATING : Nat := 4
def DMF_ST_PARTIALSTATE : Nat := 6

/-- `DMF_MR_FLAGS = 0x1 | 0x2 | 0x4`. -/
def DMF_MR_FLAGS : Nat := 0x1 ||| 0x2 ||| 0x4

def DMF_ATTR_NAME : String := "SGI_DMI_DMFATTR"

/-! External constants used by the translation unit (from `<sys/stat.h>`,
`<xfs/xfs_fs.h>`, `<xfs/dmapi.h>` and `<attr/attributes.h>`; event bit
numbers follow the XDSM DMAPI event enumeration). -/

def S_IFMT : Nat := 0xF000
def S_IFREG : Nat := 0x8000
def XFS_XFLAG_HASATTR : Nat := 0x80000000
def DM_EVENT_READ : Nat := 15
def DM_EVENT_WRITE : Nat := 16
def DM_EVENT_TRUNCATE : Nat := 17
def DM_EVENT_DESTROY : Nat := 19
def ATTR_ROOT : Nat := 0x0002

/-- `DMF_EV_BITS`: the destroy/read/write/truncate event bits. -/
def DMF_EV_BITS : Nat :=
  (1 <<< DM_EVENT_DESTROY) ||| (1 <<< DM_EVENT_READ) |||
  (1 <<< DM_EVENT_WRITE) ||| (1 <<< DM_EVENT_TRUNCATE)

/-! ## Machine-integer helpers

`BTOBB` and the extent-length computation in `HsmModifyExtentMap` are
performed by C on `__u64` / `__int64_t`; these helpers make the
wrap-around explicit on `Nat`/`Int`. -/

/-- Conversion of a signed 64-bit value to `__u64` (value modulo `2^64`). -/
def toU64 (i : Int) : Nat := (i % (2 : Int) ^ 64).toNat

/-- Reading a `__u64` bit pattern as `__int64_t` (two's complement). -/
def ofInt64 (n : Nat) : Int :=
  if n % 2 ^ 64 < 2 ^ 63 then ((n % 2 ^ 64 : Nat) : Int)
  else ((n % 2 ^ 64 : Nat) : Int) - 2 ^ 64

/-- `BTOBB(bytes) = (((__u64)(bytes)) + BBMASK) >> BBSHIFT` with
`BBSHIFT = 9`, `BBMASK = 511`: bytes to 512-byte basic blocks,
rounding up, in `__u64` arithmetic. -/
def BTOBB (bytes : Int) : Nat := ((toU64 bytes + 511) % 2 ^ 64) >>> 9

/-! ## Data model: contexts, bulk-stat record, extent records -/

/-- `xfs_bstat_t`, restricted to the fields this translation unit reads. -/
structure xfs_bstat_t where
  bs_ino : Nat
  bs_mode : Nat
  bs_gen : Nat
  bs_xflags : Nat
  bs_size : Int
  bs_dmevmask : Nat
  deriving Repr, DecidableEq

/-- `dmf_fs_ctxt_t`: dump version plus the DMAPI fsid (opaque). -/
structure dmf_fs_ctxt_t where
  dumpversion : Int
  fsid : Nat
  deriving Repr, DecidableEq

/-- `dmf_f_ctxt_t`.  The `char attrval[5000]` array is modelled as a
function from byte index to byte value; `candidate` (a C `int` used as
a flag) is modelled as `Bool`. -/
structure dmf_f_ctxt_t where
  fsys : dmf_fs_ctxt_t
  filesize : Int
  candidate : Bool
  attrlen : Nat
  attrval : Nat → Nat

/-- `struct getbmapx`, restricted to the fields this translation unit
touches (`bmv_offset`, `bmv_block`, `bmv_length`, `bmv_entries`). -/
structure getbmapx where
  bmv_offset : Int
  bmv_block : Int
  bmv_length : Int
  bmv_entries : Int
  deriving Repr, DecidableEq

def gbxZero : getbmapx := ⟨0, 0, 0, 0⟩

/-! ## Byte-buffer primitives -/

/-- Write the byte list `src` into the buffer starting at `off`
(bytes outside `[off, off + src.length)` keep their old value). -/
def storeBytes (buf : Nat → Nat) (off : Nat) (src : List Nat) : Nat → Nat :=
  fun i => if off ≤ i ∧ i < off + src.length then src.getD (i - off) 0 else buf i

/-- Read `len` consecutive bytes from the buffer starting at `off`. -/
def loadBytes (buf : Nat → Nat) (off len : Nat) : List Nat :=
  (List.range len).map (fun i => buf (off + i))

/-! ## `HsmInitFileContext` -/

/-- Result of `HsmInitFileContext`: the updated context and the C
return value, plus an observation flag recording whether the function
reached the external attribute-fetch call (`attr_multi_by_handle`). -/
structure InitResult where
  ctx : dmf_f_ctxt_t
  ret : Nat
  fetchAttempted : Bool

/-- The tail of `HsmInitFileContext`: decode `state` from the
attribute header and set `candidate` / `filesize` when it is one of
the four interesting values.  (The C local `state` is inlined.) -/
def initCheckState (c : dmf_f_ctxt_t) (statp : xfs_bstat_t) : InitResult :=
  if msb_load (loadBytes c.attrval 2 2) 2 = DMF_ST_DUALSTATE ∨
     msb_load (loadBytes c.attrval 2 2) 2 = DMF_ST_UNMIGRATING ∨
     msb_load (loadBytes c.attrval 2 2) 2 = DMF_ST_PARTIALSTATE ∨
     msb_load (loadBytes c.attrval 2 2) 2 = DMF_ST_OFFLINE then
    ⟨{ c with candidate := true, filesize := statp.bs_size }, 0, true⟩
  else
    ⟨c, 0, true⟩

/-- The context after `dmf_f_ctxtp->candidate = 0` at the top of
`HsmInitFileContext`. -/
def initClear (ctx : dmf_f_ctxt_t) : dmf_f_ctxt_t :=
  { ctx with candidate := false }

/-- The context after a successful attribute fetch: the value bytes
are written at the start of `attrval` and `attrlen` records
`am_length`. -/
def initFetched (ctx : dmf_f_ctxt_t) (bytes : List Nat) : dmf_f_ctxt_t :=
  { initClear ctx with attrlen := bytes.length,
                       attrval := storeBytes ctx.attrval 0 bytes }

/-- The structural validation of `HsmInitFileContext` after the fetch:
the `fsys` byte, the `version` switch with its per-format length
check, then the state decode. -/
def initWithAttr (c1 : dmf_f_ctxt_t) (statp : xfs_bstat_t) : InitResult :=
  if c1.attrval 0 ≠ FSYS_TYPE_XFS then ⟨c1, 0, true⟩
  else if c1.attrval 1 = DMF_ATTR_FORMAT_0 then
    if c1.attrlen ≠ sizeof_XFSattrvalue0 then ⟨c1, 0, true⟩
    else initCheckState c1 statp
  else if c1.attrval 1 = DMF_ATTR_FORMAT_1 then
    if c1.attrlen < MIN_FORMAT1_ATTR_LEN then ⟨c1, 0, true⟩
    else initCheckState c1 statp
  else ⟨c1, 0, true⟩

/-- `HsmInitFileContext(contextp, statp)`.  `handleOk` models success
of `dm_make_handle`; `fetch` models `attr_multi_by_handle` (`none` for
an error or an absent attribute, `some bytes` for a fetched value of
`am_length = bytes.length` bytes written into `attrval`). -/
def HsmInitFileContext (ctx : dmf_f_ctxt_t) (statp : xfs_bstat_t)
    (handleOk : Bool) (fetch : Option (List Nat)) : InitResult :=
  if statp.bs_mode &&& S_IFMT ≠ S_IFREG then ⟨initClear ctx, 0, false⟩
  else if statp.bs_xflags &&& XFS_XFLAG_HASATTR = 0 then ⟨initClear ctx, 0, false⟩
  else if statp.bs_dmevmask &&& DMF_EV_BITS = 0 then ⟨initClear ctx, 0, false⟩
  else if handleOk = false then ⟨initClear ctx, 0, false⟩
  else
    match fetch with
    | none => ⟨initClear ctx, 0, true⟩
    | some bytes => initWithAttr (initFetched ctx bytes) statp

/-! ## `HsmModifyExtentMap` -/

/-- The `__int64_t length = BTOBB(filesize) - bmap[1].bmv_offset`
computation: `__u64` subtraction whose result is stored into a signed
64-bit variable. -/
def extentLength (filesize off : Int) : Int :=
  ofInt64 ((BTOBB filesize + (2 ^ 64 - toU64 off)) % 2 ^ 64)

/-- `HsmModifyExtentMap(contextp, bmap)`: the getbmapx array is a list
whose element 0 is the summary slot and element 1 the current extent.
Returns the updated array and the C return value. -/
def HsmModifyExtentMap (ctx : dmf_f_ctxt_t) (bmap : List getbmapx) :
    List getbmapx × Nat :=
  if (bmap.getD 0 gbxZero).bmv_entries ≤ 0 then (bmap, 1)
  else if ctx.candidate = false then (bmap, 1)
  else if 0 < extentLength ctx.filesize (bmap.getD 1 gbxZero).bmv_offset then
    ((bmap.set 0 { bmap.getD 0 gbxZero with bmv_entries := 1 }).set 1
      { bmap.getD 1 gbxZero with
          bmv_block := -1,
          bmv_length := extentLength ctx.filesize (bmap.getD 1 gbxZero).bmv_offset },
     1)
  else
    (bmap.set 0 { bmap.getD 0 gbxZero with bmv_entries := 0 }, 1)

/-! ## `HsmFilterExistingAttribute` -/

/-- `HsmFilterExistingAttribute(hsm_f_ctxtp, namep, valuesz, flag,
skip_entry)`: returns the (unmodified) context, the C return value,
and the value stored through `skip_entry`. -/
def HsmFilterExistingAttribute (ctx : dmf_f_ctxt_t) (namep : String)
    (valuesz : Nat) (flag : Nat) : dmf_f_ctxt_t × Nat × Nat :=
  if ctx.candidate = false then (ctx, 1, 0)
  else if flag ≠ ATTR_ROOT then (ctx, 1, 0)
  else if namep ≠ DMF_ATTR_NAME then (ctx, 1, 0)
  else if valuesz < sizeof_XFSattrvalue0 then (ctx, 0, 0)
  else (ctx, 1, 1)

/-! ## `HsmAddNewAttribute` -/

/-- Result of `HsmAddNewAttribute`: the updated context, the C return
value, and — when `*namepp` is non-NULL — the attribute name together
with the value bytes (`*valuepp`, of `*valueszp` bytes). -/
structure AddResult where
  ctx : dmf_f_ctxt_t
  ret : Nat
  attr : Option (String × List Nat)

/-- The buffer rewrite done by the format-1 branch of
`HsmAddNewAttribute`: one offline region covering the whole file
(`regcnt := 1` at offset 26, `rg_offset := 0` at 28, `rg_size :=
filesize` at 36, `rg_state := DMF_ST_OFFLINE` at 44, `rg_flags :=
DMF_MR_FLAGS` at 46, `rg_fbits := 0` at 47). -/
def addFormat1Writes (filesize : Int) (buf : Nat → Nat) : Nat → Nat :=
  storeBytes
    (storeBytes
      (storeBytes
        (storeBytes
          (storeBytes
            (storeBytes buf 26 (msb_store 1 2))
            28 (msb_store 0 8))
          36 (msb_store (toU64 filesize) 8))
        44 (msb_store DMF_ST_OFFLINE 2))
      46 [DMF_MR_FLAGS])
    47 [0]

/-- The branch of `HsmAddNewAttribute` choosing between a format-1
value (originally format 1 with a non-zero `sitetag`, at byte offset
22) and a minimal format-0 value (version byte forced to 0). -/
def addRewrite (ctx : dmf_f_ctxt_t) : dmf_f_ctxt_t :=
  if ctx.attrval 1 = DMF_ATTR_FORMAT_1 ∧
     msb_load (loadBytes ctx.attrval 22 4) 4 ≠ 0 then
    { ctx with attrlen := MIN_FORMAT1_ATTR_LEN,
               attrval := addFormat1Writes ctx.filesize ctx.attrval }
  else
    { ctx with attrlen := sizeof_XFSattrvalue0,
               attrval := storeBytes ctx.attrval 1 [DMF_ATTR_FORMAT_0] }

/-- The final common write of `HsmAddNewAttribute`: force the global
`state` field (byte offset 2) to `DMF_ST_OFFLINE`. -/
def addFinal (ctx : dmf_f_ctxt_t) : dmf_f_ctxt_t :=
  { ctx with attrval := storeBytes ctx.attrval 2 (msb_store DMF_ST_OFFLINE 2) }

/-- `HsmAddNewAttribute(hsm_f_ctxtp, cursor, flag, namepp, valuepp,
valueszp)`. -/
def HsmAddNewAttribute (ctx : dmf_f_ctxt_t) (cursor : Int) (flag : Nat) :
    AddResult :=
  if ctx.candidate = false then ⟨ctx, 1, none⟩
  else if flag ≠ ATTR_ROOT then ⟨ctx, 1, none⟩
  else if 0 < cursor then ⟨ctx, 1, none⟩
  else
    ⟨addFinal (addRewrite ctx), 1,
     some (DMF_ATTR_NAME,
       loadBytes (addFinal (addRewrite ctx)).attrval 0
         (addFinal (addRewrite ctx)).attrlen)⟩

/-! ## `HsmAllocateFileContext` and `HsmEstimateFileOffset` -/

/-- `HsmAllocateFileContext(contextp)`: mallocs a `dmf_f_ctxt_t`,
copies the filesystem context into it and clears `candidate`.  The
`garbage` argument supplies the indeterminate contents of the fresh
allocation (`filesize`, `attrlen`, `attrval` are not cleared). -/
def HsmAllocateFileContext (fsctx : dmf_fs_ctxt_t) (garbage : dmf_f_ctxt_t) :
    dmf_f_ctxt_t :=
  { garbage with fsys := fsctx, candidate := false }

/-- `HsmEstimateFileOffset(contextp, statp, bytecount, byteoffset)`:
builds a transient file context on the stack (`garbage` supplies its
indeterminate fields), classifies the file, and reports
`*byteoffset = statp->bs_size` for a candidate.  `none` models the
`return 0` "no estimate" outcome.  `bytecount` is unused by the C
code (`ARGSUSED`). -/
def HsmEstimateFileOffset (fsctx : dmf_fs_ctxt_t) (statp : xfs_bstat_t)
    (_bytecount : Int) (handleOk : Bool) (fetch : Option (List Nat))
    (garbage : dmf_f_ctxt_t) : Option Int :=
  if (HsmInitFileContext { garbage with fsys := fsctx, candidate := false }
        statp handleOk fetch).ret ≠ 0 then none
  else if (HsmInitFileContext { garbage with fsys := fsctx, candidate := false }
        statp handleOk fetch).ctx.candidate then some statp.bs_size
  else none

/-- Modelled from the spec (§4.3/§4.6): the explicit
allocate → classify → query sequence that `HsmEstimateFileOffset`'s
implicit-allocation path must refine — allocate a file context, run
classification, and return the file's total size as the offset when
the file is a candidate, "no estimate" otherwise. -/
def allocClassifyQuery (fsctx : dmf_fs_ctxt_t) (statp : xfs_bstat_t)
    (handleOk : Bool) (fetch : Option (List Nat))
    (garbage : dmf_f_ctxt_t) : Option Int :=
  if (HsmInitFileContext (HsmAllocateFileContext fsctx garbage)
        statp handleOk fetch).ctx.candidate then some statp.bs_size
  else none

/-! ## Classification predicates -/

/-- The decoded global state is one of the four values that make a
file projectable. -/
def stateInteresting (s : Nat) : Prop :=
  s = DMF_ST_DUALSTATE ∨ s = DMF_ST_UNMIGRATING ∨
  s = DMF_ST_PARTIALSTATE ∨ s = DMF_ST_OFFLINE

instance (s : Nat) : Decidable (stateInteresting s) := by
  unfold stateInteresting; infer_instance

/-- The fetched attribute bytes pass the structural checks of
`HsmInitFileContext`: supported filesystem type, supported format
version with the matching length constraint, and an interesting
big-endian-decoded global state. -/
def attrQualifies (bytes : List Nat) : Prop :=
  bytes.getD 0 0 = FSYS_TYPE_XFS ∧
  ((bytes.getD 1 0 = DMF_ATTR_FORMAT_0 ∧ bytes.length = sizeof_XFSattrvalue0) ∨
   (bytes.getD 1 0 = DMF_ATTR_FORMAT_1 ∧ MIN_FORMAT1_ATTR_LEN ≤ bytes.length)) ∧
  stateInteresting (msb_load [bytes.getD 2 0, bytes.getD 3 0] 2)

instance (bytes : List Nat) : Decidable (attrQualifies bytes) := by
  unfold attrQualifies; infer_instance

/-- The three cheap disqualification tests at the top of
`HsmInitFileContext` all pass. -/
def cheapChecksPass (statp : xfs_bstat_t) : Prop :=
  statp.bs_mode &&& S_IFMT = S_IFREG ∧
  statp.bs_xflags &&& XFS_XFLAG_HASATTR ≠ 0 ∧
  statp.bs_dmevmask &&& DMF_EV_BITS ≠ 0

instance (statp : xfs_bstat_t) : Decidable (cheapChecksPass statp) := by
  unfold cheapChecksPass; infer_instance

/-- Full qualification: cheap checks, handle construction, a
successful attribute fetch, and a structurally qualifying attribute. -/
def classifyQualifies (statp : xfs_bstat_t) (handleOk : Bool)
    (fetch : Option (List Nat)) : Prop :=
  cheapChecksPass statp ∧ handleOk = true ∧
  ∃ bytes, fetch = some bytes ∧ attrQualifies bytes

/-! ## Concrete fixtures (used by witness theorems) -/

def fsctx0 : dmf_fs_ctxt_t := ⟨1, 7⟩

def zeroBuf : Nat → Nat := fun _ => 0

/-- A buffer holding a format-1 header with a non-zero site tag. -/
def f1Buf : Nat → Nat := fun i => if i = 0 ∨ i = 1 then 1 else if i = 25 then 9 else 0

/-- Regular file, has-attr flag set, all interesting event bits set. -/
def statReg : xfs_bstat_t := ⟨101, 0x8000, 2, XFS_XFLAG_HASATTR, 4096, DMF_EV_BITS⟩

/-- A directory with no attribute flag and no event bits. -/
def statDir : xfs_bstat_t := ⟨102, 0x4000, 2, 0, 4096, 0⟩

/-- A 22-byte format-0 attribute value: XFS, version 0, state OFL. -/
def attrF0 : List Nat := [1, 0, 0, 3] ++ List.replicate 18 0

def ctxFresh : dmf_f_ctxt_t := ⟨fsctx0, 0, false, 0, zeroBuf⟩

/-- A classified non-candidate context. -/
def ctxNonCand : dmf_f_ctxt_t := ⟨fsctx0, 0, false, 22, zeroBuf⟩

/-- A classified candidate whose cached attribute is format 0. -/
def ctxCand : dmf_f_ctxt_t := ⟨fsctx0, 1024, true, 22, zeroBuf⟩

/-- A classified candidate whose cached attribute is format 1 with a
non-zero site tag. -/
def ctxCandF1 : dmf_f_ctxt_t := ⟨fsctx0, 1024, true, 48, f1Buf⟩

def bmapTwo : List getbmapx := [⟨0, 0, 0, 2⟩, ⟨1, 88, 7, 0⟩]

/-! # Theorems -/

/-! ## Codec lemmas -/

theorem msb_store_length (src n : Nat) : (msb_store src n).length = n := by
  induction n generalizing src with
  | zero => rfl
  | succ n ih => simp [msb_store, ih]

theorem msb_load_full (src : List Nat) (h : src.length = n) :
    msb_load src n = src.foldl (fun tmp b => (tmp <<< 8) ||| b) 0 := by
  rw [msb_load, ← h, List.take_length]

/-- One decoding step undoes one encoding step. -/
theorem shift_or_low (src : Nat) :
    ((src >>> 8) <<< 8) ||| (src &&& 0xff) = src := by
  have hmod : src &&& 0xff = src % 2 ^ 8 := by
    have : (0xff : Nat) = 2 ^ 8 - 1 := by norm_num
    rw [this, Nat.and_pow_two_sub_one_eq_mod]
  have hsh : (src >>> 8) <<< 8 = 2 ^ 8 * (src / 2 ^ 8) := by
    rw [Nat.shiftRight_eq_div_pow, Nat.shiftLeft_eq, Nat.mul_comm]
  rw [hmod, hsh, ← Nat.mul_add_lt_is_or (Nat.mod_lt _ (by norm_num)) _,
    Nat.div_add_mod]

/-- Core round-trip: decoding the bytes produced by `msb_store` at any
width recovers the value, provided it fits in that width. -/
theorem msb_load_msb_store (n src : Nat) (h : src < 2 ^ (8 * n)) :
    msb_load (msb_store src n) n = src := by
  induction n generalizing src with
  | zero =>
    interval_cases src
    rfl
  | succ n ih =>
    have hlen : (msb_store (src >>> 8) n).length = n := msb_store_length _ _
    have hlt : src >>> 8 < 2 ^ (8 * n) := by
      rw [Nat.shiftRight_eq_div_pow]
      have : src < 2 ^ 8 * 2 ^ (8 * n) := by
        calc src < 2 ^ (8 * (n + 1)) := h
        _ = 2 ^ 8 * 2 ^ (8 * n) := by ring
      exact Nat.div_lt_of_lt_mul this
    have hfull : msb_load (msb_store src (n + 1)) (n + 1) =
        ((msb_load (msb_store (src >>> 8) n) n) <<< 8) ||| (src &&& 0xff) := by
      rw [msb_load_full _ (by simp [msb_store, hlen])]
      rw [msb_store, List.foldl_append, ← msb_load_full _ hlen]
      rfl
    rw [hfull, ih _ hlt, shift_or_low]

/-! ## Buffer lemmas -/

theorem loadBytes_length (buf : Nat → Nat) (off len : Nat) :
    (loadBytes buf off len).length = len := by
  simp [loadBytes]

theorem storeBytes_zero_read (buf : Nat → Nat) (bytes : List Nat) (i : Nat)
    (h : i < bytes.length) : storeBytes buf 0 bytes i = bytes.getD i 0 := by
  simp [storeBytes, h]

theorem storeBytes_idem (buf : Nat → Nat) (off : Nat) (src : List Nat) :
    storeBytes (storeBytes buf off src) off src = storeBytes buf off src := by
  funext i
  unfold storeBytes
  split_ifs <;> rfl

theorem loadBytes_pair (buf : Nat → Nat) (off : Nat) :
    loadBytes buf off 2 = [buf off, buf (off + 1)] := by
  have h2 : List.range 2 = [0, 1] := rfl
  rw [loadBytes, h2]
  simp

theorem storeBytes_out (buf : Nat → Nat) (off : Nat) (src : List Nat)
    (i : Nat) (h : i < off ∨ off + src.length ≤ i) :
    storeBytes buf off src i = buf i := by
  unfold storeBytes
  rw [if_neg (by omega)]

theorem storeBytes_in (buf : Nat → Nat) (off : Nat) (src : List Nat)
    (i : Nat) (h1 : off ≤ i) (h2 : i < off + src.length) :
    storeBytes buf off src i = src.getD (i - off) 0 := by
  unfold storeBytes
  rw [if_pos ⟨h1, h2⟩]

theorem loadBytes_four (buf : Nat → Nat) (off : Nat) :
    loadBytes buf off 4 =
    [buf off, buf (off + 1), buf (off + 2), buf (off + 3)] := by
  have h4 : List.range 4 = [0, 1, 2, 3] := rfl
  rw [loadBytes, h4]
  simp

theorem loadBytes_eight (buf : Nat → Nat) (off : Nat) :
    loadBytes buf off 8 =
    [buf off, buf (off + 1), buf (off + 2), buf (off + 3), buf (off + 4),
     buf (off + 5), buf (off + 6), buf (off + 7)] := by
  have h8 : List.range 8 = [0, 1, 2, 3, 4, 5, 6, 7] := rfl
  rw [loadBytes, h8]
  simp

/-! ## Reads from the buffer rewritten by `HsmAddNewAttribute`

The format-1 branch writes at byte ranges [26,28), [28,36), [36,44),
[44,46), {46}, {47}, and the common tail writes at [2,4).  The lemmas
below evaluate each field the specification talks about. -/

theorem msb_store_offline : msb_store DMF_ST_OFFLINE 2 = [0, 3] := rfl

theorem addF1buf_one (fs : Int) (buf : Nat → Nat) :
    storeBytes (addFormat1Writes fs buf) 2 (msb_store DMF_ST_OFFLINE 2) 1 =
    buf 1 := by
  norm_num [addFormat1Writes, storeBytes, msb_store_length]

theorem addF1buf_sitetag (fs : Int) (buf : Nat → Nat) :
    loadBytes (storeBytes (addFormat1Writes fs buf) 2
      (msb_store DMF_ST_OFFLINE 2)) 22 4 = loadBytes buf 22 4 := by
  rw [loadBytes_four, loadBytes_four]
  norm_num [addFormat1Writes, storeBytes, msb_store_length]

theorem addF1buf_state (fs : Int) (buf : Nat → Nat) :
    loadBytes (storeBytes (addFormat1Writes fs buf) 2
      (msb_store DMF_ST_OFFLINE 2)) 2 2 = [0, 3] := by
  rw [loadBytes_pair]
  norm_num [addFormat1Writes, storeBytes, msb_store_length, msb_store_offline]

theorem addF1buf_regcnt (fs : Int) (buf : Nat → Nat) :
    loadBytes (storeBytes (addFormat1Writes fs buf) 2
      (msb_store DMF_ST_OFFLINE 2)) 26 2 = [0, 1] := by
  rw [loadBytes_pair]
  norm_num [addFormat1Writes, storeBytes, msb_store_length, msb_store_offline,
    show msb_store 1 2 = [0, 1] from rfl]

theorem addF1buf_rgoffset (fs : Int) (buf : Nat → Nat) :
    loadBytes (storeBytes (addFormat1Writes fs buf) 2
      (msb_store DMF_ST_OFFLINE 2)) 28 8 = msb_store 0 8 := by
  rw [loadBytes_eight]
  norm_num [addFormat1Writes, storeBytes, msb_store_length, msb_store_offline,
    show msb_store 0 8 = [0, 0, 0, 0, 0, 0, 0, 0] from rfl]

theorem addF1buf_rgsize (fs : Int) (buf : Nat → Nat) :
    loadBytes (storeBytes (addFormat1Writes fs buf) 2
      (msb_store DMF_ST_OFFLINE 2)) 36 8 = msb_store (toU64 fs) 8 := by
  have hx : msb_store (toU64 fs) 8 =
      [toU64 fs >>> 8 >>> 8 >>> 8 >>> 8 >>> 8 >>> 8 >>> 8 &&& 0xff,
       toU64 fs >>> 8 >>> 8 >>> 8 >>> 8 >>> 8 >>> 8 &&& 0xff,
       toU64 fs >>> 8 >>> 8 >>> 8 >>> 8 >>> 8 &&& 0xff,
       toU64 fs >>> 8 >>> 8 >>> 8 >>> 8 &&& 0xff,
       toU64 fs >>> 8 >>> 8 >>> 8 &&& 0xff,
       toU64 fs >>> 8 >>> 8 &&& 0xff,
       toU64 fs >>> 8 &&& 0xff,
       toU64 fs &&& 0xff] := rfl
  rw [loadBytes_eight, hx]
  norm_num [addFormat1Writes, storeBytes, msb_store_length, msb_store_offline, hx]

theorem addF1buf_rgstate (fs : Int) (buf : Nat → Nat) :
    loadBytes (storeBytes (addFormat1Writes fs buf) 2
      (msb_store DMF_ST_OFFLINE 2)) 44 2 = [0, 3] := by
  rw [loadBytes_pair]
  norm_num [addFormat1Writes, storeBytes, msb_store_length, msb_store_offline]

theorem addF1buf_rgflags (fs : Int) (buf : Nat → Nat) :
    storeBytes (addFormat1Writes fs buf) 2 (msb_store DMF_ST_OFFLINE 2) 46 =
    DMF_MR_FLAGS := by
  norm_num [addFormat1Writes, storeBytes, msb_store_length, msb_store_offline]

theorem addF1buf_rgfbits (fs : Int) (buf : Nat → Nat) :
    storeBytes (addFormat1Writes fs buf) 2 (msb_store DMF_ST_OFFLINE 2) 47 =
    0 := by
  norm_num [addFormat1Writes, storeBytes, msb_store_length, msb_store_offline]

theorem addF0buf_one (buf : Nat → Nat) :
    storeBytes (storeBytes buf 1 [DMF_ATTR_FORMAT_0]) 2
      (msb_store DMF_ST_OFFLINE 2) 1 = DMF_ATTR_FORMAT_0 := by
  norm_num [storeBytes, msb_store_length]

theorem addF0buf_state (buf : Nat → Nat) :
    loadBytes (storeBytes (storeBytes buf 1 [DMF_ATTR_FORMAT_0]) 2
      (msb_store DMF_ST_OFFLINE 2)) 2 2 = [0, 3] := by
  rw [loadBytes_pair]
  norm_num [storeBytes, msb_store_length, msb_store_offline]

/-- Re-running the format-1 rewrite plus the global-state write over a
buffer that already went through them changes nothing (all written
values are independent of prior buffer contents). -/
theorem add_writes1_idem (fs : Int) (buf : Nat → Nat) :
    storeBytes (addFormat1Writes fs (storeBytes (addFormat1Writes fs buf) 2
      (msb_store DMF_ST_OFFLINE 2))) 2 (msb_store DMF_ST_OFFLINE 2) =
    storeBytes (addFormat1Writes fs buf) 2 (msb_store DMF_ST_OFFLINE 2) := by
  funext i
  simp only [addFormat1Writes, storeBytes, msb_store_length, List.length_cons,
    List.length_nil, msb_store_offline]
  split_ifs <;> rfl

/-- Same for the format-0 rewrite (version byte plus global state). -/
theorem add_writes0_idem (buf : Nat → Nat) :
    storeBytes (storeBytes (storeBytes (storeBytes buf 1 [DMF_ATTR_FORMAT_0]) 2
      (msb_store DMF_ST_OFFLINE 2)) 1 [DMF_ATTR_FORMAT_0]) 2
      (msb_store DMF_ST_OFFLINE 2) =
    storeBytes (storeBytes buf 1 [DMF_ATTR_FORMAT_0]) 2
      (msb_store DMF_ST_OFFLINE 2) := by
  funext i
  simp only [storeBytes, msb_store_length, List.length_cons, List.length_nil,
    msb_store_offline]
  split_ifs <;> rfl

/-! ## Classifier lemmas -/

theorem initCheckState_candidate (c : dmf_f_ctxt_t) (statp : xfs_bstat_t)
    (hc : c.candidate = false) :
    (initCheckState c statp).ctx.candidate = true ↔
    stateInteresting (msb_load (loadBytes c.attrval 2 2) 2) := by
  unfold initCheckState stateInteresting
  split_ifs with h
  · simpa using h
  · simpa [hc] using h

theorem initCheckState_filesize (c : dmf_f_ctxt_t) (statp : xfs_bstat_t)
    (hc : c.candidate = false)
    (h : (initCheckState c statp).ctx.candidate = true) :
    (initCheckState c statp).ctx.filesize = statp.bs_size := by
  unfold initCheckState at *
  split_ifs at h ⊢
  · rfl
  · simp [hc] at h

theorem initFetched_candidate (ctx : dmf_f_ctxt_t) (bytes : List Nat) :
    (initFetched ctx bytes).candidate = false := rfl

theorem initFetched_attrlen (ctx : dmf_f_ctxt_t) (bytes : List Nat) :
    (initFetched ctx bytes).attrlen = bytes.length := rfl

theorem initFetched_attrval (ctx : dmf_f_ctxt_t) (bytes : List Nat) :
    (initFetched ctx bytes).attrval = storeBytes ctx.attrval 0 bytes := rfl

/-- Candidate status of the post-fetch validation, in terms of the
post-fetch context `c1`. -/
theorem initWithAttr_candidate (c1 : dmf_f_ctxt_t) (statp : xfs_bstat_t)
    (hc : c1.candidate = false) :
    (initWithAttr c1 statp).ctx.candidate = true ↔
    (c1.attrval 0 = FSYS_TYPE_XFS ∧
     ((c1.attrval 1 = DMF_ATTR_FORMAT_0 ∧ c1.attrlen = sizeof_XFSattrvalue0) ∨
      (c1.attrval 1 = DMF_ATTR_FORMAT_1 ∧ MIN_FORMAT1_ATTR_LEN ≤ c1.attrlen)) ∧
     stateInteresting (msb_load (loadBytes c1.attrval 2 2) 2)) := by
  unfold initWithAttr
  split_ifs with ha hb hc' hd he
  · simp [hc, ha]
  · simp [hc, hc', hb, DMF_ATTR_FORMAT_0, DMF_ATTR_FORMAT_1]
  · rw [initCheckState_candidate _ _ hc]
    have h22 : c1.attrlen = sizeof_XFSattrvalue0 := by omega
    constructor
    · intro h
      exact ⟨by simpa using ha, Or.inl ⟨hb, h22⟩, h⟩
    · exact fun h => h.2.2
  · -- format 1, length too small
    simp only [hc]
    constructor
    · intro h; simp at h
    · rintro ⟨_, ⟨hv, _⟩ | ⟨_, hl⟩, _⟩
      · exact absurd hv hb
      · omega
  · rw [initCheckState_candidate _ _ hc]
    constructor
    · intro h
      exact ⟨by simpa using ha, Or.inr ⟨hd, by omega⟩, h⟩
    · exact fun h => h.2.2
  · simp only [hc]
    constructor
    · intro h; simp at h
    · rintro ⟨_, ⟨hv, _⟩ | ⟨hv, _⟩, _⟩
      · exact absurd hv hb
      · exact absurd hv hd

/-- Reduce `HsmInitFileContext` to the post-fetch validation when the
cheap checks, handle construction and fetch all succeed. -/
theorem init_eq_initWithAttr (ctx : dmf_f_ctxt_t) (statp : xfs_bstat_t)
    (bytes : List Nat)
    (h1 : statp.bs_mode &&& S_IFMT = S_IFREG)
    (h2 : statp.bs_xflags &&& XFS_XFLAG_HASATTR ≠ 0)
    (h3 : statp.bs_dmevmask &&& DMF_EV_BITS ≠ 0) :
    HsmInitFileContext ctx statp true (some bytes) =
    initWithAttr (initFetched ctx bytes) statp := by
  unfold HsmInitFileContext
  rw [if_neg (by simpa using h1), if_neg h2, if_neg h3, if_neg (by simp)]

/-- Qualification of the post-fetch context, re-expressed on the raw
fetched bytes (the length constraints guarantee every header byte the
code inspects was actually fetched, never stale buffer content). -/
theorem initFetched_qualifies (ctx : dmf_f_ctxt_t) (bytes : List Nat) :
    ((initFetched ctx bytes).attrval 0 = FSYS_TYPE_XFS ∧
     (((initFetched ctx bytes).attrval 1 = DMF_ATTR_FORMAT_0 ∧
       (initFetched ctx bytes).attrlen = sizeof_XFSattrvalue0) ∨
      ((initFetched ctx bytes).attrval 1 = DMF_ATTR_FORMAT_1 ∧
       MIN_FORMAT1_ATTR_LEN ≤ (initFetched ctx bytes).attrlen)) ∧
     stateInteresting
       (msb_load (loadBytes (initFetched ctx bytes).attrval 2 2) 2)) ↔
    attrQualifies bytes := by
  rw [initFetched_attrval, initFetched_attrlen]
  have hread : ∀ i, i < bytes.length →
      storeBytes ctx.attrval 0 bytes i = bytes.getD i 0 :=
    fun i hi => storeBytes_zero_read _ _ _ hi
  unfold attrQualifies
  constructor
  · rintro ⟨hf, hver, hst⟩
    have hlen4 : 4 ≤ bytes.length := by
      rcases hver with ⟨_, hl⟩ | ⟨_, hl⟩ <;>
        simp only [sizeof_XFSattrvalue0, MIN_FORMAT1_ATTR_LEN,
          sizeof_XFSattrvalue1, sizeof_XFSattrregion] at hl ⊢ <;> omega
    rw [loadBytes_pair, hread 2 (by omega), hread 3 (by omega)] at hst
    rw [hread 0 (by omega)] at hf
    rcases hver with ⟨hv, hl⟩ | ⟨hv, hl⟩
    · rw [hread 1 (by omega)] at hv
      exact ⟨hf, Or.inl ⟨hv, hl⟩, hst⟩
    · rw [hread 1 (by omega)] at hv
      exact ⟨hf, Or.inr ⟨hv, hl⟩, hst⟩
  · rintro ⟨hf, hver, hst⟩
    have hlen4 : 4 ≤ bytes.length := by
      rcases hver with ⟨_, hl⟩ | ⟨_, hl⟩ <;>
        simp only [sizeof_XFSattrvalue0, MIN_FORMAT1_ATTR_LEN,
          sizeof_XFSattrvalue1, sizeof_XFSattrregion] at hl ⊢ <;> omega
    rw [loadBytes_pair, hread 2 (by omega), hread 3 (by omega)]
    rw [hread 0 (by omega)]
    rcases hver with ⟨hv, hl⟩ | ⟨hv, hl⟩
    · rw [hread 1 (by omega)]
      exact ⟨hf, Or.inl ⟨hv, hl⟩, hst⟩
    · rw [hread 1 (by omega)]
      exact ⟨hf, Or.inr ⟨hv, hl⟩, hst⟩

/-- Master characterization: the candidate flag after
`HsmInitFileContext` is `true` exactly when the full qualification
predicate holds; it never depends on the incoming context. -/
theorem init_candidate_iff (ctx : dmf_f_ctxt_t) (statp : xfs_bstat_t)
    (handleOk : Bool) (fetch : Option (List Nat)) :
    (HsmInitFileContext ctx statp handleOk fetch).ctx.candidate = true ↔
    classifyQualifies statp handleOk fetch := by
  unfold classifyQualifies cheapChecksPass
  by_cases h1 : statp.bs_mode &&& S_IFMT = S_IFREG
  · by_cases h2 : statp.bs_xflags &&& XFS_XFLAG_HASATTR = 0
    · simp [HsmInitFileContext, initClear, h1, h2]
    · by_cases h3 : statp.bs_dmevmask &&& DMF_EV_BITS = 0
      · simp [HsmInitFileContext, initClear, h1, h2, h3]
      · cases handleOk with
        | false => simp [HsmInitFileContext, initClear, h1, h2, h3]
        | true =>
          cases fetch with
          | none => simp [HsmInitFileContext, initClear, h1, h2, h3]
          | some bytes =>
            rw [init_eq_initWithAttr ctx statp bytes h1 h2 h3,
              initWithAttr_candidate _ _ (initFetched_candidate ctx bytes),
              initFetched_qualifies]
            simp [h1, h2, h3]
  · simp [HsmInitFileContext, initClear, h1]

theorem initCheckState_ret (c : dmf_f_ctxt_t) (statp : xfs_bstat_t) :
    (initCheckState c statp).ret = 0 := by
  unfold initCheckState
  split_ifs <;> rfl

theorem initWithAttr_ret (c1 : dmf_f_ctxt_t) (statp : xfs_bstat_t) :
    (initWithAttr c1 statp).ret = 0 := by
  unfold initWithAttr
  split_ifs <;> first | rfl | exact initCheckState_ret _ _

/-- `HsmInitFileContext` returns 0 on every path. -/
theorem init_ret (ctx : dmf_f_ctxt_t) (statp : xfs_bstat_t)
    (handleOk : Bool) (fetch : Option (List Nat)) :
    (HsmInitFileContext ctx statp handleOk fetch).ret = 0 := by
  rcases fetch with _ | bytes <;>
    · unfold HsmInitFileContext
      split_ifs <;> first | rfl | exact initWithAttr_ret _ _

/-- When the classifier reaches the state check, the cached
`filesize` of a candidate is the metadata's `bs_size`. -/
theorem initWithAttr_filesize (c1 : dmf_f_ctxt_t) (statp : xfs_bstat_t)
    (hc : c1.candidate = false)
    (h : (initWithAttr c1 statp).ctx.candidate = true) :
    (initWithAttr c1 statp).ctx.filesize = statp.bs_size := by
  unfold initWithAttr at *
  split_ifs at h ⊢ <;>
    first
      | exact initCheckState_filesize _ _ hc h
      | (exfalso; simp [hc] at h)

/-- The candidate outcome of `HsmInitFileContext` does not depend on
the incoming context. -/
theorem init_candidate_ext (ctx ctx' : dmf_f_ctxt_t) (statp : xfs_bstat_t)
    (handleOk : Bool) (fetch : Option (List Nat)) :
    (HsmInitFileContext ctx statp handleOk fetch).ctx.candidate =
    (HsmInitFileContext ctx' statp handleOk fetch).ctx.candidate := by
  cases hA : (HsmInitFileContext ctx statp handleOk fetch).ctx.candidate <;>
    cases hB : (HsmInitFileContext ctx' statp handleOk fetch).ctx.candidate
  · rfl
  · have h2 := (init_candidate_iff ctx statp handleOk fetch).mpr
      ((init_candidate_iff ctx' statp handleOk fetch).mp hB)
    rw [hA] at h2
    exact h2
  · have h2 := (init_candidate_iff ctx' statp handleOk fetch).mpr
      ((init_candidate_iff ctx statp handleOk fetch).mp hA)
    rw [hB] at h2
    exact h2.symm
  · rfl

/-! ## Idempotence lemmas -/

/-- The post-fetch validation never changes `attrval`, `attrlen` or
`fsys`. -/
theorem initWithAttr_preserve (c1 : dmf_f_ctxt_t) (statp : xfs_bstat_t) :
    (initWithAttr c1 statp).ctx.attrval = c1.attrval ∧
    (initWithAttr c1 statp).ctx.fsys = c1.fsys := by
  unfold initWithAttr initCheckState
  split_ifs <;> exact ⟨rfl, rfl⟩

/-- Re-fetching the same bytes into the context produced by a
classification yields the same post-fetch context up to the (possibly
updated) `filesize` field. -/
theorem initFetched_after (ctx : dmf_f_ctxt_t) (statp : xfs_bstat_t)
    (bytes : List Nat) :
    initFetched ((initWithAttr (initFetched ctx bytes) statp).ctx) bytes =
    { initFetched ctx bytes with
        filesize := (initWithAttr (initFetched ctx bytes) statp).ctx.filesize } := by
  have hp := initWithAttr_preserve (initFetched ctx bytes) statp
  simp only [initFetched, initClear] at hp ⊢
  simp only [dmf_f_ctxt_t.mk.injEq, and_true, true_and]
  refine ⟨hp.2, ?_⟩
  rw [hp.1]
  exact storeBytes_idem _ _ _

/-- Validation is insensitive to refreshing `filesize` with the value
it itself produced. -/
theorem initWithAttr_refresh (c1 : dmf_f_ctxt_t) (statp : xfs_bstat_t) :
    initWithAttr
      { c1 with filesize := (initWithAttr c1 statp).ctx.filesize } statp =
    initWithAttr c1 statp := by
  unfold initWithAttr initCheckState
  dsimp only
  split_ifs <;> rfl

/-- `HsmInitFileContext` is idempotent: re-running it on the context
it produced, with the same metadata and the same fetched bytes,
reproduces the result exactly. -/
theorem init_idem (ctx : dmf_f_ctxt_t) (statp : xfs_bstat_t)
    (handleOk : Bool) (fetch : Option (List Nat)) :
    HsmInitFileContext (HsmInitFileContext ctx statp handleOk fetch).ctx
      statp handleOk fetch = HsmInitFileContext ctx statp handleOk fetch := by
  rcases fetch with _ | bytes
  · unfold HsmInitFileContext
    split_ifs <;> rfl
  · unfold HsmInitFileContext
    split_ifs <;>
      first
        | rfl
        | (dsimp only
           rw [initFetched_after]
           exact initWithAttr_refresh _ _)

/-- `HsmFilterExistingAttribute` never modifies the context. -/
theorem filter_fst (ctx : dmf_f_ctxt_t) (namep : String) (valuesz : Nat)
    (flag : Nat) :
    (HsmFilterExistingAttribute ctx namep valuesz flag).1 = ctx := by
  unfold HsmFilterExistingAttribute
  split_ifs <;> rfl

/-- The rewrite applied by `HsmAddNewAttribute` leaves `candidate` and
`filesize` untouched. -/
theorem addFinal_addRewrite_preserve (ctx : dmf_f_ctxt_t) :
    (addFinal (addRewrite ctx)).candidate = ctx.candidate ∧
    (addFinal (addRewrite ctx)).filesize = ctx.filesize := by
  unfold addFinal addRewrite
  split_ifs <;> exact ⟨rfl, rfl⟩

/-- `HsmAddNewAttribute` is idempotent: calling it again on the
context it produced, with the same cursor and flag, reproduces the
result (name, value bytes, length and context) exactly. -/
theorem add_idem (ctx : dmf_f_ctxt_t) (cursor : Int) (flag : Nat) :
    HsmAddNewAttribute (HsmAddNewAttribute ctx cursor flag).ctx cursor flag =
    HsmAddNewAttribute ctx cursor flag := by
  by_cases hcand : ctx.candidate = false
  · simp [HsmAddNewAttribute, hcand]
  · by_cases hflag : flag ≠ ATTR_ROOT
    · simp [HsmAddNewAttribute, hcand, hflag]
    · by_cases hcur : 0 < cursor
      · simp [HsmAddNewAttribute, hcand, hflag, hcur]
      · have hmain : HsmAddNewAttribute ctx cursor flag =
            ⟨addFinal (addRewrite ctx), 1,
             some (DMF_ATTR_NAME,
               loadBytes (addFinal (addRewrite ctx)).attrval 0
                 (addFinal (addRewrite ctx)).attrlen)⟩ := by
          unfold HsmAddNewAttribute
          rw [if_neg hcand, if_neg hflag, if_neg hcur]
        rw [hmain]
        have hA : (addFinal (addRewrite ctx)).candidate = ctx.candidate :=
          (addFinal_addRewrite_preserve ctx).1
        have hmain2 : HsmAddNewAttribute (addFinal (addRewrite ctx)) cursor flag =
            ⟨addFinal (addRewrite (addFinal (addRewrite ctx))), 1,
             some (DMF_ATTR_NAME,
               loadBytes (addFinal (addRewrite (addFinal (addRewrite ctx)))).attrval 0
                 (addFinal (addRewrite (addFinal (addRewrite ctx)))).attrlen)⟩ := by
          unfold HsmAddNewAttribute
          rw [if_neg (by rw [hA]; exact hcand), if_neg hflag, if_neg hcur]
        rw [hmain2]
        suffices h : addFinal (addRewrite (addFinal (addRewrite ctx))) =
            addFinal (addRewrite ctx) by rw [h]
        by_cases hfmt : ctx.attrval 1 = DMF_ATTR_FORMAT_1 ∧
            msb_load (loadBytes ctx.attrval 22 4) 4 ≠ 0
        · have hrw : addRewrite ctx =
              { ctx with attrlen := MIN_FORMAT1_ATTR_LEN,
                         attrval := addFormat1Writes ctx.filesize ctx.attrval } := by
            unfold addRewrite
            rw [if_pos hfmt]
          rw [hrw]
          unfold addFinal
          dsimp only
          have hfmt2 :
              storeBytes (addFormat1Writes ctx.filesize ctx.attrval) 2
                  (msb_store DMF_ST_OFFLINE 2) 1 = DMF_ATTR_FORMAT_1 ∧
              msb_load (loadBytes (storeBytes
                (addFormat1Writes ctx.filesize ctx.attrval) 2
                (msb_store DMF_ST_OFFLINE 2)) 22 4) 4 ≠ 0 := by
            rw [addF1buf_one, addF1buf_sitetag]
            exact hfmt
          unfold addRewrite
          dsimp only
          rw [if_pos hfmt2]
          dsimp only
          rw [add_writes1_idem]
        · have hrw : addRewrite ctx =
              { ctx with attrlen := sizeof_XFSattrvalue0,
                         attrval := storeBytes ctx.attrval 1 [DMF_ATTR_FORMAT_0] } := by
            unfold addRewrite
            rw [if_neg hfmt]
          rw [hrw]
          unfold addFinal
          dsimp only
          have hfmt2 : ¬(storeBytes (storeBytes ctx.attrval 1 [DMF_ATTR_FORMAT_0]) 2
                (msb_store DMF_ST_OFFLINE 2) 1 = DMF_ATTR_FORMAT_1 ∧
              msb_load (loadBytes (storeBytes
                (storeBytes ctx.attrval 1 [DMF_ATTR_FORMAT_0]) 2
                (msb_store DMF_ST_OFFLINE 2)) 22 4) 4 ≠ 0) := by
            rw [addF0buf_one]
            rintro ⟨h0, -⟩
            exact absurd h0 (by decide)
          unfold addRewrite
          dsimp only
          rw [if_neg hfmt2]
          dsimp only
          rw [add_writes0_idem]

/-! ## Extent-length arithmetic -/

/-- In the representable range (non-negative `off64_t` values), the
`__u64` computation `BTOBB(filesize) - bmv_offset` stored into
`__int64_t` equals the ideal value `⌈filesize / 512⌉ - bmv_offset`. -/
theorem extentLength_eq (fs off : Int) (hfs0 : 0 ≤ fs) (hfs1 : fs < 2 ^ 63)
    (hoff0 : 0 ≤ off) (hoff1 : off < 2 ^ 63) :
    extentLength fs off = (fs + 511) / 512 - off := by
  unfold extentLength ofInt64 BTOBB toU64
  rw [Nat.shiftRight_eq_div_pow]
  have h1 : fs % (2 : Int) ^ 64 = fs := Int.emod_eq_of_lt hfs0 (by omega)
  have h2 : off % (2 : Int) ^ 64 = off := Int.emod_eq_of_lt hoff0 (by omega)
  rw [h1, h2]
  split_ifs with h <;> omega

/-! ## Claim theorems -/

/-- C1: with the three cheap checks passed, the handle built and the
attribute fetch successful, `HsmInitFileContext` sets
`is_candidate = true` — and then caches `filesize` from the metadata —
exactly when the fetched bytes carry `fsys = FSYS_TYPE_XFS`, a version
of 0 with length exactly 22 or of 1 with length at least 48, and a
big-endian-decoded global state in {2, 3, 4, 6}; any other fetched
value leaves `is_candidate = false`. -/
theorem classify_candidate_iff_attr (ctx : dmf_f_ctxt_t)
    (statp : xfs_bstat_t) (bytes : List Nat)
    (h1 : statp.bs_mode &&& S_IFMT = S_IFREG)
    (h2 : statp.bs_xflags &&& XFS_XFLAG_HASATTR ≠ 0)
    (h3 : statp.bs_dmevmask &&& DMF_EV_BITS ≠ 0) :
    ((HsmInitFileContext ctx statp true (some bytes)).ctx.candidate = true ↔
      (bytes.getD 0 0 = FSYS_TYPE_XFS ∧
       ((bytes.getD 1 0 = DMF_ATTR_FORMAT_0 ∧
         bytes.length = sizeof_XFSattrvalue0) ∨
        (bytes.getD 1 0 = DMF_ATTR_FORMAT_1 ∧
         MIN_FORMAT1_ATTR_LEN ≤ bytes.length)) ∧
       (msb_load [bytes.getD 2 0, bytes.getD 3 0] 2 = DMF_ST_DUALSTATE ∨
        msb_load [bytes.getD 2 0, bytes.getD 3 0] 2 = DMF_ST_OFFLINE ∨
        msb_load [bytes.getD 2 0, bytes.getD 3 0] 2 = DMF_ST_UNMIGRATING ∨
        msb_load [bytes.getD 2 0, bytes.getD 3 0] 2 = DMF_ST_PARTIALSTATE))) ∧
    ((HsmInitFileContext ctx statp true (some bytes)).ctx.candidate = true →
      (HsmInitFileContext ctx statp true (some bytes)).ctx.filesize =
        statp.bs_size) := by
  constructor
  · rw [init_eq_initWithAttr ctx statp bytes h1 h2 h3,
      initWithAttr_candidate _ _ (initFetched_candidate _ _),
      initFetched_qualifies]
    unfold attrQualifies stateInteresting
    tauto
  · intro h
    rw [init_eq_initWithAttr ctx statp bytes h1 h2 h3] at h ⊢
    exact initWithAttr_filesize _ _ (initFetched_candidate _ _) h

theorem classify_candidate_iff_attr_witness :
    statReg.bs_mode &&& S_IFMT = S_IFREG ∧
    statReg.bs_xflags &&& XFS_XFLAG_HASATTR ≠ 0 ∧
    statReg.bs_dmevmask &&& DMF_EV_BITS ≠ 0 ∧
    (HsmInitFileContext ctxFresh statReg true (some attrF0)).ctx.candidate = true ∧
    (HsmInitFileContext ctxFresh statReg true (some attrF0)).ctx.filesize = 4096 := by
  have h := classify_candidate_iff_attr ctxFresh statReg attrF0
    (by decide) (by decide) (by decide)
  have hc := h.1.mpr (by decide)
  exact ⟨by decide, by decide, by decide, hc, (h.2 hc).trans rfl⟩

/-- C4: when the file is not regular, or the has-attributes flag is
clear, or no interesting event bit is set, `HsmInitFileContext`
leaves `is_candidate = false` and never reaches the external
attribute-fetch call. -/
theorem classify_cheap_checks_short_circuit (ctx : dmf_f_ctxt_t)
    (statp : xfs_bstat_t) (handleOk : Bool) (fetch : Option (List Nat))
    (h : statp.bs_mode &&& S_IFMT ≠ S_IFREG ∨
         statp.bs_xflags &&& XFS_XFLAG_HASATTR = 0 ∨
         statp.bs_dmevmask &&& DMF_EV_BITS = 0) :
    (HsmInitFileContext ctx statp handleOk fetch).ctx.candidate = false ∧
    (HsmInitFileContext ctx statp handleOk fetch).fetchAttempted = false := by
  unfold HsmInitFileContext
  split_ifs with hA hB hC hD
  · exact ⟨rfl, rfl⟩
  · exact ⟨rfl, rfl⟩
  · exact ⟨rfl, rfl⟩
  · exact ⟨rfl, rfl⟩
  · exfalso
    rcases h with h | h | h
    · exact hA h
    · exact hB h
    · exact hC h

theorem classify_cheap_checks_short_circuit_witness :
    statDir.bs_mode &&& S_IFMT ≠ S_IFREG ∧
    (HsmInitFileContext ctxFresh statDir true (some attrF0)).ctx.candidate = false ∧
    (HsmInitFileContext ctxFresh statDir true (some attrF0)).fetchAttempted = false := by
  have h := classify_cheap_checks_short_circuit ctxFresh statDir true
    (some attrF0) (Or.inl (by decide))
  exact ⟨by decide, h.1, h.2⟩

/-- C5 counterexample: the claim quantifies over every file context,
but for a context that is not a candidate, a matching name in the
root namespace with an advertised size of 10 (< 22) bytes returns
success (1) with the skip flag clear — not the `CorruptAttribute`
failure the claim requires. -/
theorem filter_small_value_noncandidate_cex :
    (HsmFilterExistingAttribute ctxNonCand DMF_ATTR_NAME 10 ATTR_ROOT).2.1 = 1 ∧
    (HsmFilterExistingAttribute ctxNonCand DMF_ATTR_NAME 10 ATTR_ROOT).2.2 = 0 :=
  ⟨rfl, rfl⟩

/-- C5 amended: for every *candidate* file context, a call with the
managed attribute's name, the root namespace flag and an advertised
value size below the 22-byte minimal header returns the structural
failure code 0. -/
theorem filter_corrupt_attribute (ctx : dmf_f_ctxt_t)
    (hc : ctx.candidate = true) (valuesz : Nat)
    (hv : valuesz < sizeof_XFSattrvalue0) :
    (HsmFilterExistingAttribute ctx DMF_ATTR_NAME valuesz ATTR_ROOT).2.1 = 0 := by
  unfold HsmFilterExistingAttribute
  rw [if_neg (by simp [hc]), if_neg (by simp), if_neg (by simp), if_pos hv]

theorem filter_corrupt_attribute_witness :
    ctxCand.candidate = true ∧ 10 < sizeof_XFSattrvalue0 ∧
    (HsmFilterExistingAttribute ctxCand DMF_ATTR_NAME 10 ATTR_ROOT).2.1 = 0 :=
  ⟨rfl, by decide, filter_corrupt_attribute ctxCand rfl 10 (by decide)⟩

/-- C6: `HsmEstimateFileOffset`, which allocates its file context
implicitly, coincides with the explicit allocate → classify → query
sequence on every input (for any requested byte count and any
indeterminate contents of either allocation): the file's total size
when classification marks a candidate, "no estimate" otherwise. -/
theorem estimate_offset_refines (fsctx : dmf_fs_ctxt_t) (statp : xfs_bstat_t)
    (bytecount : Int) (handleOk : Bool) (fetch : Option (List Nat))
    (g g' : dmf_f_ctxt_t) :
    HsmEstimateFileOffset fsctx statp bytecount handleOk fetch g =
    allocClassifyQuery fsctx statp handleOk fetch g' := by
  unfold HsmEstimateFileOffset allocClassifyQuery HsmAllocateFileContext
  rw [if_neg (by simp [init_ret])]
  rw [init_candidate_ext { g with fsys := fsctx, candidate := false }
    { g' with fsys := fsctx, candidate := false } statp handleOk fetch]

/-- C8: for every width from 1 to 8 bytes and every value representable
in that width, `msb_load` inverts `msb_store`. -/
theorem msb_roundtrip (w v : Nat) (hw1 : 1 ≤ w) (hw2 : w ≤ 8)
    (hv : v < 2 ^ (8 * w)) : msb_load (msb_store v w) w = v :=
  msb_load_msb_store w v hv

theorem msb_roundtrip_witness :
    1 ≤ 8 ∧ 8 ≤ 8 ∧ 0xDEADBEEFCAFE1234 < 2 ^ (8 * 8) ∧
    msb_load (msb_store 0xDEADBEEFCAFE1234 8) 8 = 0xDEADBEEFCAFE1234 :=
  ⟨by decide, by decide, by decide,
   msb_roundtrip 8 0xDEADBEEFCAFE1234 (by decide) (by decide) (by decide)⟩

/-- C9: whenever any step of classification disqualifies the file —
cheap checks, handle construction, fetch failure or absence, or any
structural check on the fetched bytes — `is_candidate` is `false` on
return, even if the context held `is_candidate = true` from a
previous file. -/
theorem classify_disqualified_clears_candidate (ctx : dmf_f_ctxt_t)
    (statp : xfs_bstat_t) (handleOk : Bool) (fetch : Option (List Nat))
    (h : ¬ classifyQualifies statp handleOk fetch) :
    (HsmInitFileContext ctx statp handleOk fetch).ctx.candidate = false := by
  cases hcand : (HsmInitFileContext ctx statp handleOk fetch).ctx.candidate
  · rfl
  · exact absurd ((init_candidate_iff ctx statp handleOk fetch).mp hcand) h

theorem classify_disqualified_clears_candidate_witness :
    ctxCand.candidate = true ∧
    (HsmInitFileContext ctxCand statReg true none).ctx.candidate = false :=
  ⟨rfl, classify_disqualified_clears_candidate ctxCand statReg true none
    (fun q => by obtain ⟨b, hb, -⟩ := q.2.2; cases hb)⟩

/-- C10: `HsmInitFileContext` returns 0 on every input; the documented
nonzero failure return is never produced, so disqualification is
observable only through `is_candidate`. -/
theorem classify_always_returns_zero (ctx : dmf_f_ctxt_t)
    (statp : xfs_bstat_t) (handleOk : Bool) (fetch : Option (List Nat)) :
    (HsmInitFileContext ctx statp handleOk fetch).ret = 0 :=
  init_ret ctx statp handleOk fetch

/-- C7: classifying twice with identical metadata and fetched bytes,
filtering twice with the same arguments, and adding twice with the
same cursor all reproduce their first result exactly — even though
`HsmAddNewAttribute` rewrites the cached attribute buffer in place on
the first call. -/
theorem hsm_calls_idempotent (ctx : dmf_f_ctxt_t) (statp : xfs_bstat_t)
    (handleOk : Bool) (fetch : Option (List Nat)) (namep : String)
    (valuesz : Nat) (flag : Nat) (cursor : Int) :
    HsmInitFileContext (HsmInitFileContext ctx statp handleOk fetch).ctx
      statp handleOk fetch = HsmInitFileContext ctx statp handleOk fetch ∧
    HsmFilterExistingAttribute
      (HsmFilterExistingAttribute ctx namep valuesz flag).1 namep valuesz flag =
      HsmFilterExistingAttribute ctx namep valuesz flag ∧
    HsmAddNewAttribute (HsmAddNewAttribute ctx cursor flag).ctx cursor flag =
      HsmAddNewAttribute ctx cursor flag :=
  ⟨init_idem ctx statp handleOk fetch,
   by rw [filter_fst],
   add_idem ctx cursor flag⟩

/-- C2: for a candidate context and an extent array reporting at least
one entry, `HsmModifyExtentMap` computes
`remaining = ⌈filesize / 512⌉ - bmap[1].bmv_offset`; if positive it
collapses the report to one hole entry (`bmv_block = -1`) of that
length, otherwise it reports zero entries; when the count slot reports
no entries or the context is not a candidate the array is untouched;
the return value is always 1. -/
theorem modify_extent_map_projects (ctx : dmf_f_ctxt_t)
    (bmap : List getbmapx) (hlen : 2 ≤ bmap.length)
    (hfs0 : 0 ≤ ctx.filesize) (hfs1 : ctx.filesize < 2 ^ 63)
    (hoff0 : 0 ≤ (bmap.getD 1 gbxZero).bmv_offset)
    (hoff1 : (bmap.getD 1 gbxZero).bmv_offset < 2 ^ 63) :
    (HsmModifyExtentMap ctx bmap).2 = 1 ∧
    ((bmap.getD 0 gbxZero).bmv_entries ≤ 0 ∨ ctx.candidate = false →
      (HsmModifyExtentMap ctx bmap).1 = bmap) ∧
    (1 ≤ (bmap.getD 0 gbxZero).bmv_entries → ctx.candidate = true →
      ((0 < (ctx.filesize + 511) / 512 - (bmap.getD 1 gbxZero).bmv_offset →
        (HsmModifyExtentMap ctx bmap).1 =
          (bmap.set 0 { bmap.getD 0 gbxZero with bmv_entries := 1 }).set 1
            { bmap.getD 1 gbxZero with
                bmv_block := -1,
                bmv_length := (ctx.filesize + 511) / 512 -
                  (bmap.getD 1 gbxZero).bmv_offset }) ∧
       ((ctx.filesize + 511) / 512 - (bmap.getD 1 gbxZero).bmv_offset ≤ 0 →
        (HsmModifyExtentMap ctx bmap).1 =
          bmap.set 0 { bmap.getD 0 gbxZero with bmv_entries := 0 }))) := by
  have hext := extentLength_eq ctx.filesize (bmap.getD 1 gbxZero).bmv_offset
    hfs0 hfs1 hoff0 hoff1
  unfold HsmModifyExtentMap
  rw [hext]
  by_cases h0 : (bmap.getD 0 gbxZero).bmv_entries ≤ 0
  · rw [if_pos h0]
    exact ⟨rfl, fun _ => rfl, fun hx _ => absurd h0 (by omega)⟩
  · rw [if_neg h0]
    by_cases hcand : ctx.candidate = false
    · rw [if_pos hcand]
      refine ⟨rfl, fun _ => rfl, fun _ hc => ?_⟩
      rw [hc] at hcand
      exact absurd hcand (by simp)
    · rw [if_neg hcand]
      by_cases hr : 0 < (ctx.filesize + 511) / 512 -
          (bmap.getD 1 gbxZero).bmv_offset
      · rw [if_pos hr]
        refine ⟨rfl, ?_, fun _ _ => ⟨fun _ => rfl, fun hle => absurd hr (by omega)⟩⟩
        rintro (h | h)
        · exact absurd h h0
        · exact absurd h hcand
      · rw [if_neg hr]
        refine ⟨rfl, ?_, fun _ _ => ⟨fun hpos => absurd hpos hr, fun _ => rfl⟩⟩
        rintro (h | h)
        · exact absurd h h0
        · exact absurd h hcand

/-- C3: for a candidate context, `HsmAddNewAttribute` with cursor 0
and the root namespace returns success and a value whose global state
decodes to offline; if the cached attribute is format 1 with a
non-zero site tag the value is format 1, of exactly header-plus-one-
region length, with region count 1 and a single region at offset 0 of
size equal to the cached file size, region state offline, and the
fixed event/extra flag bytes; in every other candidate case the value
is a minimal 22-byte format-0 one. -/
theorem add_new_attribute_emits (ctx : dmf_f_ctxt_t)
    (hc : ctx.candidate = true)
    (hfs0 : 0 ≤ ctx.filesize) (hfs1 : ctx.filesize < 2 ^ 64) :
    (HsmAddNewAttribute ctx 0 ATTR_ROOT).ret = 1 ∧
    msb_load (loadBytes (HsmAddNewAttribute ctx 0 ATTR_ROOT).ctx.attrval 2 2) 2 =
      DMF_ST_OFFLINE ∧
    (HsmAddNewAttribute ctx 0 ATTR_ROOT).attr =
      some (DMF_ATTR_NAME,
        loadBytes (HsmAddNewAttribute ctx 0 ATTR_ROOT).ctx.attrval 0
          (HsmAddNewAttribute ctx 0 ATTR_ROOT).ctx.attrlen) ∧
    (ctx.attrval 1 = DMF_ATTR_FORMAT_1 ∧
     msb_load (loadBytes ctx.attrval 22 4) 4 ≠ 0 →
      (HsmAddNewAttribute ctx 0 ATTR_ROOT).ctx.attrlen = MIN_FORMAT1_ATTR_LEN ∧
      (HsmAddNewAttribute ctx 0 ATTR_ROOT).ctx.attrval 1 = DMF_ATTR_FORMAT_1 ∧
      msb_load (loadBytes (HsmAddNewAttribute ctx 0 ATTR_ROOT).ctx.attrval 26 2) 2 =
        1 ∧
      msb_load (loadBytes (HsmAddNewAttribute ctx 0 ATTR_ROOT).ctx.attrval 28 8) 8 =
        0 ∧
      (msb_load (loadBytes (HsmAddNewAttribute ctx 0 ATTR_ROOT).ctx.attrval 36 8) 8 :
        Int) = ctx.filesize ∧
      msb_load (loadBytes (HsmAddNewAttribute ctx 0 ATTR_ROOT).ctx.attrval 44 2) 2 =
        DMF_ST_OFFLINE ∧
      (HsmAddNewAttribute ctx 0 ATTR_ROOT).ctx.attrval 46 = DMF_MR_FLAGS ∧
      (HsmAddNewAttribute ctx 0 ATTR_ROOT).ctx.attrval 47 = 0) ∧
    (¬(ctx.attrval 1 = DMF_ATTR_FORMAT_1 ∧
       msb_load (loadBytes ctx.attrval 22 4) 4 ≠ 0) →
      (HsmAddNewAttribute ctx 0 ATTR_ROOT).ctx.attrlen = sizeof_XFSattrvalue0 ∧
      (HsmAddNewAttribute ctx 0 ATTR_ROOT).ctx.attrval 1 = DMF_ATTR_FORMAT_0) := by
  have hmain : HsmAddNewAttribute ctx 0 ATTR_ROOT =
      ⟨addFinal (addRewrite ctx), 1,
       some (DMF_ATTR_NAME,
         loadBytes (addFinal (addRewrite ctx)).attrval 0
           (addFinal (addRewrite ctx)).attrlen)⟩ := by
    unfold HsmAddNewAttribute
    rw [if_neg (by simp [hc]), if_neg (by simp), if_neg (by simp)]
  rw [hmain]
  by_cases hfmt : ctx.attrval 1 = DMF_ATTR_FORMAT_1 ∧
      msb_load (loadBytes ctx.attrval 22 4) 4 ≠ 0
  · have hrw : addRewrite ctx =
        { ctx with attrlen := MIN_FORMAT1_ATTR_LEN,
                   attrval := addFormat1Writes ctx.filesize ctx.attrval } := by
      unfold addRewrite
      rw [if_pos hfmt]
    rw [hrw]
    unfold addFinal
    dsimp only
    refine ⟨rfl, ?_, rfl, fun _ => ⟨rfl, ?_, ?_, ?_, ?_, ?_, ?_, ?_⟩,
      fun h => absurd hfmt h⟩
    · rw [addF1buf_state]; decide
    · rw [addF1buf_one]; exact hfmt.1
    · rw [addF1buf_regcnt]; decide
    · rw [addF1buf_rgoffset]; decide
    · rw [addF1buf_rgsize,
        msb_load_msb_store 8 (toU64 ctx.filesize) (by unfold toU64; norm_num; omega)]
      unfold toU64
      omega
    · rw [addF1buf_rgstate]; decide
    · rw [addF1buf_rgflags]
    · rw [addF1buf_rgfbits]
  · have hrw : addRewrite ctx =
        { ctx with attrlen := sizeof_XFSattrvalue0,
                   attrval := storeBytes ctx.attrval 1 [DMF_ATTR_FORMAT_0] } := by
      unfold addRewrite
      rw [if_neg hfmt]
    rw [hrw]
    unfold addFinal
    dsimp only
    refine ⟨rfl, ?_, rfl, fun h => absurd h hfmt, fun _ => ⟨rfl, ?_⟩⟩
    · rw [addF0buf_state]; decide
    · rw [addF0buf_one]

theorem add_new_attribute_emits_witness :
    ctxCandF1.candidate = true ∧
    (ctxCandF1.attrval 1 = DMF_ATTR_FORMAT_1 ∧
     msb_load (loadBytes ctxCandF1.attrval 22 4) 4 ≠ 0) ∧
    (HsmAddNewAttribute ctxCandF1 0 ATTR_ROOT).ret = 1 ∧
    (HsmAddNewAttribute ctxCandF1 0 ATTR_ROOT).ctx.attrlen =
      MIN_FORMAT1_ATTR_LEN ∧
    (msb_load (loadBytes (HsmAddNewAttribute ctxCandF1 0 ATTR_ROOT).ctx.attrval
      36 8) 8 : Int) = 1024 := by
  have h := add_new_attribute_emits ctxCandF1 rfl (by decide) (by decide)
  have hf : ctxCandF1.attrval 1 = DMF_ATTR_FORMAT_1 ∧
      msb_load (loadBytes ctxCandF1.attrval 22 4) 4 ≠ 0 := by decide
  exact ⟨rfl, hf, h.1, (h.2.2.2.1 hf).1,
    ((h.2.2.2.1 hf).2.2.2.2.1).trans rfl⟩

theorem modify_extent_map_projects_witness :
    2 ≤ bmapTwo.length ∧ ctxCand.candidate = true ∧
    (HsmModifyExtentMap ctxCand bmapTwo).2 = 1 ∧
    (HsmModifyExtentMap ctxCand bmapTwo).1 =
      [⟨0, 0, 0, 1⟩, ⟨1, -1, 1, 0⟩] := by
  have h := modify_extent_map_projects ctxCand bmapTwo (by decide)
    (by decide) (by decide) (by decide) (by decide)
  refine ⟨by decide, rfl, h.1, ?_⟩
  have h2 := (h.2.2 (by decide) rfl).1 (by decide)
  rw [h2]
  decide

end Hsm
